import Mathlib

/-
Shallow embedding of src/coffee_machine.py (GCU Coffee Machine Simulator).
Python integers are modelled as Lean Int (unbounded, signed, exact).
Printing is modelled by returning the displayed data; the wall-clock
timestamp of an order (time.strftime, line 54) is not modelled, since no
claim depends on real time.
-/

namespace CoffeeSim

/-- A coffee drink with its ingredient requirements and price
(class Drink, src/coffee_machine.py lines 9-32). -/
structure Drink where
  name : String
  water : Int
  milk : Int
  coffee : Int
  cost : Int
deriving DecidableEq

/-- A customer order record (class Order, lines 35-54). The timestamp
field of the source is omitted: it records wall-clock time only. -/
structure Order where
  drink_name : String
  amount_paid : Int
deriving DecidableEq

/-- The mutable state of the machine: the resources dictionary, the
collected money and the order list (CoffeeMachine.__init__, lines 69-95).
The menu is constant after construction and is embedded separately. -/
structure CoffeeMachine where
  water : Int
  milk : Int
  coffee : Int
  money_collected : Int
  orders : List Order
deriving DecidableEq

/-- The fresh machine of CoffeeMachine.__init__ (lines 77-95):
water 1000 ml, milk 800 ml, coffee 300 g, no money, no orders. -/
def CoffeeMachine.init : CoffeeMachine :=
  { water := 1000
    milk := 800
    coffee := 300
    money_collected := 0
    orders := [] }

/-- Menu entry (line 86). -/
def espresso : Drink := ⟨"Espresso", 50, 0, 18, 100⟩

/-- Menu entry (line 87). -/
def latte : Drink := ⟨"Latte", 200, 150, 24, 200⟩

/-- Menu entry (line 88). -/
def cappuccino : Drink := ⟨"Cappuccino", 250, 100, 24, 250⟩

/-- The menu dictionary lookup (lines 85-89, used at lines 219-220):
maps the lowercased choice string to its drink, none when absent. -/
def menu (choice : String) : Option Drink :=
  if choice = "espresso" then some espresso
  else if choice = "latte" then some latte
  else if choice = "cappuccino" then some cappuccino
  else none

/-- Which resource an insufficiency diagnostic names. -/
inductive Resource
  | water
  | milk
  | coffee
deriving DecidableEq

/-- CoffeeMachine.check_resources (lines 112-135). The source returns a
bool and prints a diagnostic naming the first insufficient resource;
here, some r is the run that prints the diagnostic for r and returns
False, and none is the run that returns True. The source method reads
state and prints only, mutating nothing; the embedding is a pure
function of the machine. -/
def check_resources (m : CoffeeMachine) (d : Drink) : Option Resource :=
  if m.water < d.water then some Resource.water
  else if m.milk < d.milk then some Resource.milk
  else if m.coffee < d.coffee then some Resource.coffee
  else none

/-- CoffeeMachine.make_drink (lines 137-162): deduct the three
resources, add the cost to the money collected, and append an order
recording the drink name and its cost. -/
def make_drink (m : CoffeeMachine) (d : Drink) : CoffeeMachine :=
  { m with
    water := m.water - d.water
    milk := m.milk - d.milk
    coffee := m.coffee - d.coffee
    money_collected := m.money_collected + d.cost
    orders := m.orders ++ [⟨d.name, d.cost⟩] }

/-- CoffeeMachine.show_order_history (lines 164-180): the list of order
records the method displays. An empty history returns early with no
records displayed; otherwise the Python slice orders[-5:] displays the
last five orders, oldest first. -/
def show_order_history (m : CoffeeMachine) : List Order :=
  if m.orders = [] then []
  else m.orders.drop (m.orders.length - 5)

/-- Modelled from the spec: the Order Ledger operation recent(n), the
last n records oldest-to-newest. The source realizes only the n = 5
instance, as the slice orders[-5:] inside show_order_history; this is
its generalization to arbitrary n. -/
def recent (orders : List Order) (n : Nat) : List Order :=
  orders.drop (orders.length - n)

/-- Why a purchase attempt is rejected (section 7 taxonomy of the spec,
realized by the three rejecting paths of CoffeeMachine.run). -/
inductive RejectReason
  | UnknownDrink
  | InsufficientResource (which : Resource)
  | InsufficientPayment
deriving DecidableEq

/-- The outcome of one purchase attempt. -/
inductive TransactionResult
  | Committed (change : Int)
  | Rejected (reason : RejectReason)
deriving DecidableEq

/-- One purchase attempt of the run loop (lines 219-246): resolve the
choice in the menu (line 219, falling to the invalid-option branch at
lines 249-250 when absent), check resources (lines 222-223), then
compare the tendered amount with the cost (line 235); on amount at
least cost, compute the change (line 236) and call make_drink
(line 243); otherwise refund (line 246). Returns the outcome and the
machine state after the attempt. -/
def purchase (m : CoffeeMachine) (choice : String) (amount : Int) :
    TransactionResult × CoffeeMachine :=
  match menu choice with
  | none => (TransactionResult.Rejected RejectReason.UnknownDrink, m)
  | some drink =>
    match check_resources m drink with
    | some r =>
        (TransactionResult.Rejected (RejectReason.InsufficientResource r), m)
    | none =>
        if amount ≥ drink.cost then
          (TransactionResult.Committed (amount - drink.cost), make_drink m drink)
        else
          (TransactionResult.Rejected RejectReason.InsufficientPayment, m)

/-- The data displayed by CoffeeMachine.print_report (lines 97-110):
resource levels, total sales and order count. -/
structure Report where
  water : Int
  milk : Int
  coffee : Int
  total_sales : Int
  total_orders : Nat
deriving DecidableEq

/-- CoffeeMachine.print_report (lines 97-110) as the snapshot it
displays; the method reads state and prints only. -/
def print_report (m : CoffeeMachine) : Report :=
  ⟨m.water, m.milk, m.coffee, m.money_collected, m.orders.length⟩

/-- The configured admin secret (line 209). -/
def admin_password : String := "gcuadmin"

/-- The report branch of the run loop (lines 206-212): the report is
produced exactly when the supplied password equals the secret, and the
machine state is returned unchanged either way. -/
def report_request (m : CoffeeMachine) (password : String) :
    Option Report × CoffeeMachine :=
  if password = admin_password then (some (print_report m), m)
  else (none, m)

/-- The gate-then-deduct composition the source performs on the
inventory: the check_resources gate of run (lines 222-223) followed by
the three resource deductions of make_drink (lines 150-153). Returns
whether the deduction happened together with the resulting state. -/
def deduct (m : CoffeeMachine) (d : Drink) : Bool × CoffeeMachine :=
  match check_resources m d with
  | some _ => (false, m)
  | none =>
      (true,
       { m with
         water := m.water - d.water
         milk := m.milk - d.milk
         coffee := m.coffee - d.coffee })

/-- One iteration of the run loop (lines 196-250), abstracted over the
console input it consumes. -/
inductive Op
  | order (choice : String) (amount : Int)
  | report (password : String)
  | history
deriving DecidableEq

/-- The state transition of one run-loop iteration. Report and history
requests read state only; a drink order runs one purchase attempt. -/
def step (m : CoffeeMachine) (op : Op) : CoffeeMachine :=
  match op with
  | Op.order choice amount => (purchase m choice amount).2
  | Op.report _ => m
  | Op.history => m

/-- The machine state after a sequence of run-loop iterations. -/
def run_ops (m : CoffeeMachine) (ops : List Op) : CoffeeMachine :=
  ops.foldl step m

/-- The sum of the amount_paid fields over a list of orders. Each
committed order stores the price of its drink in amount_paid
(line 159), so this is the sum of committed order prices. -/
def ledger_sum (orders : List Order) : Int :=
  (orders.map Order.amount_paid).sum

end CoffeeSim

namespace CoffeeSim

/-- Helper: check_resources returns none (the source returns True)
exactly when every requirement of the drink is covered by the current
inventory. -/
theorem check_resources_eq_none_iff (m : CoffeeMachine) (d : Drink) :
    check_resources m d = none ↔
      d.water ≤ m.water ∧ d.milk ≤ m.milk ∧ d.coffee ≤ m.coffee := by
  unfold check_resources
  split_ifs with h1 h2 h3 <;> simp <;> omega

/-- C1: every rejected purchase attempt, whatever the reject reason
(unknown drink, insufficient resource, or tendered amount below price),
leaves the whole machine state, hence the inventory quantities, the
order ledger and the collected revenue, exactly unchanged. -/
theorem purchase_rejected_unchanged (m : CoffeeMachine) (choice : String)
    (amount : Int) (r : RejectReason)
    (h : (purchase m choice amount).1 = TransactionResult.Rejected r) :
    (purchase m choice amount).2 = m := by
  unfold purchase at h ⊢
  cases hm : menu choice with
  | none => simp [hm]
  | some d =>
    cases hc : check_resources m d with
    | some r2 => simp [hm, hc]
    | none =>
      by_cases hp : amount ≥ d.cost
      · simp [hm, hc, hp] at h
      · simp [hm, hc, hp]

/-- C1 witness: the concrete rejected purchase of the unknown drink
mocha on the fresh machine leaves the machine unchanged. -/
theorem purchase_rejected_unchanged_w :
    (purchase CoffeeMachine.init "mocha" 100).2 = CoffeeMachine.init :=
  purchase_rejected_unchanged CoffeeMachine.init "mocha" 100
    RejectReason.UnknownDrink rfl

/-- Helper for C2: one run-loop iteration preserves the revenue
invariant money_collected = sum of amount_paid over the ledger. -/
theorem step_preserves_revenue (m : CoffeeMachine) (op : Op)
    (h : m.money_collected = ledger_sum m.orders) :
    (step m op).money_collected = ledger_sum (step m op).orders := by
  cases op with
  | report p => exact h
  | history => exact h
  | order choice amount =>
    simp only [step]
    unfold purchase
    cases hm : menu choice with
    | none => simpa using h
    | some d =>
      cases hc : check_resources m d with
      | some r => simpa [hc] using h
      | none =>
        by_cases hp : amount ≥ d.cost
        · simp [hc, hp, make_drink, ledger_sum, h]
        · simpa [hc, hp] using h

/-- C2: at every state reachable from the fresh machine by any sequence
of run-loop operations, the collected revenue equals the sum of the
recorded prices of the committed orders in the ledger. -/
theorem revenue_invariant (ops : List Op) :
    (run_ops CoffeeMachine.init ops).money_collected =
      ledger_sum (run_ops CoffeeMachine.init ops).orders := by
  have gen : ∀ (l : List Op) (m : CoffeeMachine),
      m.money_collected = ledger_sum m.orders →
      (run_ops m l).money_collected = ledger_sum (run_ops m l).orders := by
    intro l
    induction l with
    | nil => intro m h; exact h
    | cons op tl ih =>
      intro m h
      exact ih (step m op) (step_preserves_revenue m op h)
  exact gen ops CoffeeMachine.init rfl

/-- C3: the gated deduction succeeds exactly when check_resources finds
every resource sufficient, on success no resulting inventory quantity is
negative, and on failure the machine is unchanged (no partial
deduction). -/
theorem deduct_safe (m : CoffeeMachine) (d : Drink) :
    ((deduct m d).1 = true ↔ check_resources m d = none) ∧
    ((deduct m d).1 = true →
        0 ≤ (deduct m d).2.water ∧ 0 ≤ (deduct m d).2.milk ∧
        0 ≤ (deduct m d).2.coffee) ∧
    ((deduct m d).1 = false → (deduct m d).2 = m) := by
  cases hc : check_resources m d with
  | some r =>
      refine ⟨?_, ?_, ?_⟩ <;> simp [deduct, hc]
  | none =>
      have h := (check_resources_eq_none_iff m d).mp hc
      refine ⟨by simp [deduct, hc], ?_, by simp [deduct, hc]⟩
      intro hdone
      simp [deduct, hc]
      omega

/-- C3 witness: the deduction of an espresso from the fresh machine. -/
theorem deduct_safe_w :
    ((deduct CoffeeMachine.init espresso).1 = true ↔
        check_resources CoffeeMachine.init espresso = none) ∧
    ((deduct CoffeeMachine.init espresso).1 = true →
        0 ≤ (deduct CoffeeMachine.init espresso).2.water ∧
        0 ≤ (deduct CoffeeMachine.init espresso).2.milk ∧
        0 ≤ (deduct CoffeeMachine.init espresso).2.coffee) ∧
    ((deduct CoffeeMachine.init espresso).1 = false →
        (deduct CoffeeMachine.init espresso).2 = CoffeeMachine.init) :=
  deduct_safe CoffeeMachine.init espresso

/-- C4: check_resources answers none (the source returns True) exactly
when water, milk and coffee each cover the requirement of the drink;
the embedding is a pure function of the machine, matching the source
method, which reads and prints but never writes state. -/
theorem check_resources_correct (m : CoffeeMachine) (d : Drink) :
    check_resources m d = none ↔
      d.water ≤ m.water ∧ d.milk ≤ m.milk ∧ d.coffee ≤ m.coffee :=
  check_resources_eq_none_iff m d

/-- C5: for a known drink with sufficient resources, a tendered amount
below the cost is rejected as InsufficientPayment with the machine
unchanged (so no ledger entry and the full amount kept by the caller),
and an amount at least the cost commits through make_drink with change
exactly amount minus cost, which is never negative. -/
theorem purchase_payment_rule (m : CoffeeMachine) (choice : String) (d : Drink)
    (amount : Int) (hm : menu choice = some d)
    (hc : check_resources m d = none) :
    (amount < d.cost →
        purchase m choice amount =
          (TransactionResult.Rejected RejectReason.InsufficientPayment, m)) ∧
    (d.cost ≤ amount →
        purchase m choice amount =
          (TransactionResult.Committed (amount - d.cost), make_drink m d) ∧
        0 ≤ amount - d.cost) := by
  constructor
  · intro hlt
    simp [purchase, hm, hc, show ¬ amount ≥ d.cost by omega]
  · intro hge
    refine ⟨?_, by omega⟩
    simp [purchase, hm, hc, show amount ≥ d.cost from hge]

/-- C5 witness: tendering 150 for a latte costing 200 on the fresh
machine, where the payment branch rejects. -/
theorem purchase_payment_rule_w :
    ((150 : Int) < latte.cost →
        purchase CoffeeMachine.init "latte" 150 =
          (TransactionResult.Rejected RejectReason.InsufficientPayment,
           CoffeeMachine.init)) ∧
    (latte.cost ≤ (150 : Int) →
        purchase CoffeeMachine.init "latte" 150 =
          (TransactionResult.Committed (150 - latte.cost),
           make_drink CoffeeMachine.init latte) ∧
        0 ≤ (150 : Int) - latte.cost) :=
  purchase_payment_rule CoffeeMachine.init "latte" latte 150 rfl rfl

/-- C6: on the fresh machine (water 1000, milk 800, coffee 300), buying
an espresso with exactly 100 commits with change 0 and leaves water 950,
milk 800, coffee 282, revenue 100 and exactly one order. -/
theorem espresso_scenario :
    purchase CoffeeMachine.init "espresso" 100 =
      (TransactionResult.Committed 0,
       { water := 950, milk := 800, coffee := 282, money_collected := 100,
         orders := [⟨"Espresso", 100⟩] }) ∧
    (purchase CoffeeMachine.init "espresso" 100).2.orders.length = 1 := by
  decide

/-- C7: recent returns at most n records, exactly the trailing segment
of the history in oldest-to-newest order, the whole history whenever it
holds at most n records, and the empty sequence on an empty history;
the show_order_history display of the source is recent at n = 5. -/
theorem recent_correct (orders : List Order) (n : Nat) (m : CoffeeMachine) :
    (recent orders n).length ≤ n ∧
    orders.take (orders.length - n) ++ recent orders n = orders ∧
    (orders.length ≤ n → recent orders n = orders) ∧
    recent ([] : List Order) n = [] ∧
    show_order_history m = recent m.orders 5 := by
  refine ⟨?_, ?_, ?_, ?_, ?_⟩
  · simp [recent]
    omega
  · simp [recent, List.take_append_drop]
  · intro h
    simp [recent, Nat.sub_eq_zero_of_le h]
  · simp [recent]
  · unfold show_order_history recent
    split_ifs with h
    · simp [h]
    · rfl

/-- C7 witness: a concrete seven-order history with n = 3, and the
machine after one espresso purchase for the history display. -/
theorem recent_correct_w :
    (recent ([⟨"a", 1⟩, ⟨"b", 2⟩, ⟨"c", 3⟩, ⟨"d", 4⟩, ⟨"e", 5⟩, ⟨"f", 6⟩,
        ⟨"g", 7⟩] : List Order) 3).length ≤ 3 ∧
    List.take (([⟨"a", 1⟩, ⟨"b", 2⟩, ⟨"c", 3⟩, ⟨"d", 4⟩, ⟨"e", 5⟩, ⟨"f", 6⟩,
          ⟨"g", 7⟩] : List Order).length - 3)
        ([⟨"a", 1⟩, ⟨"b", 2⟩, ⟨"c", 3⟩, ⟨"d", 4⟩, ⟨"e", 5⟩, ⟨"f", 6⟩,
          ⟨"g", 7⟩] : List Order) ++
      recent ([⟨"a", 1⟩, ⟨"b", 2⟩, ⟨"c", 3⟩, ⟨"d", 4⟩, ⟨"e", 5⟩, ⟨"f", 6⟩,
        ⟨"g", 7⟩] : List Order) 3 =
      ([⟨"a", 1⟩, ⟨"b", 2⟩, ⟨"c", 3⟩, ⟨"d", 4⟩, ⟨"e", 5⟩, ⟨"f", 6⟩,
        ⟨"g", 7⟩] : List Order) ∧
    (([⟨"a", 1⟩, ⟨"b", 2⟩, ⟨"c", 3⟩, ⟨"d", 4⟩, ⟨"e", 5⟩, ⟨"f", 6⟩,
          ⟨"g", 7⟩] : List Order).length ≤ 3 →
        recent ([⟨"a", 1⟩, ⟨"b", 2⟩, ⟨"c", 3⟩, ⟨"d", 4⟩, ⟨"e", 5⟩, ⟨"f", 6⟩,
          ⟨"g", 7⟩] : List Order) 3 =
        ([⟨"a", 1⟩, ⟨"b", 2⟩, ⟨"c", 3⟩, ⟨"d", 4⟩, ⟨"e", 5⟩, ⟨"f", 6⟩,
          ⟨"g", 7⟩] : List Order)) ∧
    recent ([] : List Order) 3 = [] ∧
    show_order_history (purchase CoffeeMachine.init "espresso" 100).2 =
      recent (purchase CoffeeMachine.init "espresso" 100).2.orders 5 :=
  recent_correct
    ([⟨"a", 1⟩, ⟨"b", 2⟩, ⟨"c", 3⟩, ⟨"d", 4⟩, ⟨"e", 5⟩, ⟨"f", 6⟩,
      ⟨"g", 7⟩] : List Order)
    3 (purchase CoffeeMachine.init "espresso" 100).2

/-- C8: the diagnostic of check_resources names the first insufficient
resource in the fixed order water, milk, coffee: milk is reported only
when water is sufficient, and coffee only when both water and milk
are. -/
theorem diag_first_insufficient (m : CoffeeMachine) (d : Drink) :
    (check_resources m d = some Resource.water ↔ m.water < d.water) ∧
    (check_resources m d = some Resource.milk ↔
        d.water ≤ m.water ∧ m.milk < d.milk) ∧
    (check_resources m d = some Resource.coffee ↔
        d.water ≤ m.water ∧ d.milk ≤ m.milk ∧ m.coffee < d.coffee) := by
  unfold check_resources
  split_ifs with h1 h2 h3 <;> refine ⟨?_, ?_, ?_⟩ <;> simp <;> omega

/-- C9: the report is produced exactly when the supplied credential
equals the configured secret, any other string is denied with no report,
and the request never changes the machine state; the gate is the single
equality test of the embedding. -/
theorem report_gate (m : CoffeeMachine) (password : String) :
    ((report_request m password).1 = some (print_report m) ↔
        password = admin_password) ∧
    (password ≠ admin_password → (report_request m password).1 = none) ∧
    (report_request m password).2 = m := by
  unfold report_request
  split_ifs with h <;> simp [h]

/-- C9 witness: a wrong credential on the fresh machine is denied and
changes nothing. -/
theorem report_gate_w :
    ((report_request CoffeeMachine.init "wrong").1 =
        some (print_report CoffeeMachine.init) ↔ "wrong" = admin_password) ∧
    ("wrong" ≠ admin_password →
        (report_request CoffeeMachine.init "wrong").1 = none) ∧
    (report_request CoffeeMachine.init "wrong").2 = CoffeeMachine.init :=
  report_gate CoffeeMachine.init "wrong"

/-- C10: every committed purchase appends exactly one order whose
amount_paid field is the cost (price) of the purchased drink, never the
tendered amount, so overpayment is invisible in the ledger. -/
theorem committed_order_stores_price (m : CoffeeMachine) (choice : String)
    (amount : Int) (c : Int) (m2 : CoffeeMachine)
    (h : purchase m choice amount = (TransactionResult.Committed c, m2)) :
    ∃ d, menu choice = some d ∧
      m2.orders = m.orders ++ [{ drink_name := d.name, amount_paid := d.cost }] := by
  unfold purchase at h
  cases hm : menu choice with
  | none => simp [hm] at h
  | some d =>
    cases hc : check_resources m d with
    | some r => simp [hm, hc] at h
    | none =>
      by_cases hp : amount ≥ d.cost
      · simp [hm, hc, hp] at h
        refine ⟨d, rfl, ?_⟩
        rw [← h.2]
        rfl
      · simp [hm, hc, hp] at h

/-- C10 witness: overpaying 150 for an espresso costing 100 commits with
change 50, yet the appended order records 100, the price. -/
theorem committed_order_stores_price_w :
    ∃ d, menu "espresso" = some d ∧
      ({ water := 950, milk := 800, coffee := 282, money_collected := 100,
         orders := [⟨"Espresso", 100⟩] } : CoffeeMachine).orders =
        CoffeeMachine.init.orders ++
          [{ drink_name := d.name, amount_paid := d.cost }] :=
  committed_order_stores_price CoffeeMachine.init "espresso" 150 50 _ (by decide)

end CoffeeSim
